import Mathlib

/-!
Verification development for the `webshell-detector` repository (Go).

The detection engine is shallowly embedded: Go `float64` scores become `ℚ`
(the scoring logic only adds, multiplies by constant weights, divides by a
constant weight sum, and compares against integer thresholds, all exact in
`ℚ`); Go byte strings become `String`/`List Char`; fallible Go functions
return `Except`/`Option`.  External effectful collaborators (the file
system, the Go `regexp` engine, the YARA engine, the strace sandbox) are
abstracted as oracle parameters carrying exactly the data the source code
consumes from them; every piece of scoring and control logic is translated
from the source.
-/

/-! ## String utilities (models of the Go `strings` package operations used) -/

/-- Model of Go `strings.Contains(s, pat)` on character lists: `pat` occurs
as a contiguous sublist of `s`. -/
def containsSub (pat : List Char) : List Char → Bool
  | [] => pat.isEmpty
  | c :: rest => pat.isPrefixOf (c :: rest) || containsSub pat rest

/-- Model of Go `strings.Contains(s, pat)`. -/
def containsSubstring (s pat : String) : Bool :=
  containsSub pat.toList s.toList

/-- Model of Go `strings.ToLower` (kernel-computable, unlike `String.toLower`
which is defined through byte positions). -/
def stringToLower (s : String) : String :=
  String.mk (s.toList.map Char.toLower)

/-- Fuel-driven auxiliary for `countOccurrences`; the fuel is the length of
the scanned list, enough because every step consumes at least one character. -/
def countOccAux (pat : List Char) : ℕ → List Char → ℕ
  | 0, _ => 0
  | _, [] => 0
  | fuel + 1, c :: rest =>
    if pat.isPrefixOf (c :: rest) then
      1 + countOccAux pat fuel (List.drop (pat.length - 1) rest)
    else countOccAux pat fuel rest

/-- Model of Go `strings.Count(s, pat)` for a non-empty `pat`: number of
non-overlapping occurrences (all call sites in the source pass non-empty
literals). -/
def countOccurrences (s pat : String) : ℕ :=
  countOccAux pat.toList s.toList.length s.toList

/-! ## Data model (src/internal/detector/detector.go lines 14-35) -/

/-- Risk level, a four-valued string enum in the source
(`HIGH`/`MEDIUM`/`LOW`/`SAFE`). -/
inductive RiskLevel where
  | high
  | medium
  | low
  | safe
deriving DecidableEq, Repr

/-- `DetectionResult` from src/internal/detector/detector.go lines 15-25.
In Go the `RiskLevel` field starts as the zero string and is always assigned
by `calculateTotalScore` before being read; here it starts as `safe`. -/
structure DetectionResult where
  FilePath : String
  IsWebshell : Bool
  RiskLevel : RiskLevel
  FeatureScore : ℚ
  BehaviorScore : ℚ
  MLScore : ℚ
  MatchedFeatures : List String
  Behaviors : List String
  TotalScore : ℚ
deriving DecidableEq, Repr

/-- Configuration flags and limits consumed by the detector
(`config.Detection.*` fields read in detector.go). -/
structure DetectorConfig where
  behaviorEnabled : Bool
  mlEnabled : Bool
  yaraEnabled : Bool
  yaraMaxFileSize : ℤ
deriving DecidableEq, Repr

/-- Shared shape of the source's score-accumulating loops: walk a list, and
for every element passing the test add its weight to the score and append its
description.  Each Go loop below instantiates this with its own data. -/
def scoreFold {α : Type} (pr : α → Bool) (f : α → ℚ) (g : α → String)
    (l : List α) (init : ℚ × List String) : ℚ × List String :=
  l.foldl (fun acc x => if pr x then (acc.1 + f x, acc.2 ++ [g x]) else acc) init

/-! ## FeatureMatcher (detector.go, `featureMatch` / `matchRegexPatterns` /
`matchYaraRules`) -/

/-- `FeatureMatchResult` from detector.go lines 194-199. -/
structure FeatureMatchResult where
  Score : ℚ
  Matches : List String
  YaraMatches : List String
  RegexMatches : List String
deriving DecidableEq, Repr

/-- The five `WebshellPatterns` entries (detector.go lines 202-231) with
their weights 100/80/100/80/80.  The regex engine is abstracted by a match
oracle, so each pattern is identified here by a descriptive key standing for
its regex text (the scoring logic never inspects the text). -/
def WebshellPatterns : List (String × ℚ) :=
  [("dangerous-function-call", 100),
   ("dynamic-function-execution", 80),
   ("encoding-obfuscation-bypass", 100),
   ("variable-override-input-reception", 80),
   ("file-operation-backdoor", 80)]

/-- `matchRegexPatterns` (detector.go lines 286-301): each pattern that the
oracle `matched` reports as matching at least once adds its weight and its
identifier, regardless of match count. -/
def matchRegexPatterns (matched : String → Bool) : ℚ × List String :=
  scoreFold (fun p => matched p.1) (fun p => p.2) (fun p => p.1)
    WebshellPatterns (0, [])

/-- What the YARA engine produces for one `.yar` rule file: either a
per-file failure (open/compile/scan error) or a list of rule matches, each a
rule name together with its already-joined tag string. -/
inductive RuleFileOutcome where
  | failure (msg : String)
  | ruleMatches (ms : List (String × String))
deriving DecidableEq, Repr

/-- Match list carried by a rule-file outcome (empty for a failure). -/
def ruleMatchList : RuleFileOutcome → List (String × String)
  | RuleFileOutcome.failure _ => []
  | RuleFileOutcome.ruleMatches ms => ms

/-- The `filepath.Walk` body of `matchYaraRules` (detector.go lines 313-366)
over one rule directory: rule files are processed in order, every match adds
50 to the score and appends `"<rule> (<tags>)"`, and the first failing rule
file aborts the remainder of that directory's walk with its error. -/
def walkRuleFiles : List RuleFileOutcome → ℚ × List String × Option String
  | [] => (0, [], none)
  | RuleFileOutcome.failure msg :: _ => (0, [], some msg)
  | RuleFileOutcome.ruleMatches ms :: rest =>
    (50 * (ms.length : ℚ) + (walkRuleFiles rest).1,
     ms.map (fun m => m.1 ++ " (" ++ m.2 ++ ")") ++ (walkRuleFiles rest).2.1,
     (walkRuleFiles rest).2.2)

/-- One iteration of the rule-type loop of `matchYaraRules` (detector.go
lines 309-371): the directory's walk result is accumulated and a walk error
is only logged (`fmt.Printf("Warning: ...")`), never returned. -/
def yaraAccumulate (acc : ℚ × List String) (dir : List RuleFileOutcome) :
    ℚ × List String :=
  (acc.1 + (walkRuleFiles dir).1, acc.2 ++ (walkRuleFiles dir).2.1)

/-- `matchYaraRules` (detector.go lines 304-376): accumulate over every rule
directory, clamp the score at 100, and return a `nil` error (the only
`return` with a non-nil error is inside the walk callback, whose error is
swallowed by the warning print). -/
def matchYaraRules (ruleDirs : List (List RuleFileOutcome)) :
    ℚ × List String × Option String :=
  let acc := ruleDirs.foldl yaraAccumulate (0, [])
  (if acc.1 > 100 then 100 else acc.1, acc.2, none)

/-- `featureMatch` (detector.go lines 246-283): reject content larger than
the configured YARA maximum size, otherwise add the regex score and (when
YARA is enabled) the YARA score, concatenate the match lists, and clamp the
final score at 100.  The YARA error branch mirrors the dead check in the
source (`matchYaraRules` always returns a `nil` error). -/
def featureMatch (cfg : DetectorConfig) (contentLen : ℕ)
    (matched : String → Bool) (ruleDirs : List (List RuleFileOutcome)) :
    Except String FeatureMatchResult :=
  if (contentLen : ℤ) > cfg.yaraMaxFileSize then
    Except.error "file size exceeds maximum allowed size for YARA scanning"
  else
    let rm := matchRegexPatterns matched
    let base : FeatureMatchResult :=
      { Score := rm.1, Matches := [], YaraMatches := [], RegexMatches := rm.2 }
    let afterYara : Except String FeatureMatchResult :=
      if cfg.yaraEnabled then
        match matchYaraRules ruleDirs with
        | (_, _, some e) => Except.error ("YARA matching failed: " ++ e)
        | (s, l, none) =>
          Except.ok { base with Score := base.Score + s, YaraMatches := l }
      else Except.ok base
    match afterYara with
    | Except.error e => Except.error e
    | Except.ok r =>
      let r := { r with Matches := r.RegexMatches ++ r.YaraMatches }
      Except.ok { r with Score := if r.Score > 100 then 100 else r.Score }

/-! ## BehaviorAnalyzer trace interpretation (src/unnamed/part_007,
`behaviorAnalyze` lines 53-127).  Sandbox creation and strace execution are
effectful; the interpretation of the captured trace text, which is all the
claims concern, is embedded as a pure function of the trace. -/

/-- `BehaviorAnalysisResult` from part_007 lines 15-18. -/
structure BehaviorAnalysisResult where
  Score : ℚ
  Behaviors : List String
deriving DecidableEq, Repr

/-- The `dangerousFileOps` table (part_007 lines 57-67).  The Go map is
iterated in unspecified order; the score is an order-independent sum, and
this embedding fixes the source's textual order for the behavior list. -/
def dangerousFileOps : List (String × ℚ × String) :=
  [("unlink(", 30, "Attempted to delete files"),
   ("rmdir(", 20, "Attempted to delete directories"),
   ("chmod(", 20, "Attempted to change file permissions"),
   ("chown(", 20, "Attempted to change file ownership"),
   ("symlink(", 15, "Attempted to create symbolic links"),
   ("rename(", 10, "Attempted to rename files")]

/-- The dangerous-file-operation loop (part_007 lines 69-76): an operation
contributes (`math.Abs` of its positive constant weight, i.e. the weight
itself) exactly when its pattern occurs in the trace AND the whole trace
contains neither `/tmp/` nor `/var/cache/`. -/
def fileOpsScore (trace : String) : ℚ × List String :=
  scoreFold
    (fun op => containsSubstring trace op.1 &&
      !(containsSubstring trace "/tmp/") &&
      !(containsSubstring trace "/var/cache/"))
    (fun op => op.2.1) (fun op => op.2.2) dangerousFileOps (0, [])

/-- The network-connection check (part_007 lines 79-85): `connect(` present
and neither `127.0.0.1` nor `localhost` anywhere in the trace scores 20. -/
def connectScore (trace : String) : ℚ × List String :=
  if containsSubstring trace "connect(" &&
      !(containsSubstring trace "127.0.0.1") &&
      !(containsSubstring trace "localhost") then
    (20, ["Attempted to establish external network connection"])
  else (0, [])

/-- The `dangerousCommands` list (part_007 lines 88-90). -/
def dangerousCommands : List String :=
  ["sh", "bash", "cmd", "powershell", "nc", "netcat", "curl", "wget", "telnet"]

/-- The process-creation loop (part_007 lines 91-96): each command whose
`execve("<cmd>"` string occurs in the lowercased trace scores 25. -/
def commandsScore (trace : String) : ℚ × List String :=
  scoreFold
    (fun c => containsSubstring (stringToLower trace) ("execve(\"" ++ c ++ "\""))
    (fun _ => 25)
    (fun c => "Attempted to execute dangerous command: " ++ c)
    dangerousCommands (0, [])

/-- The `sensitiveFiles` table (part_007 lines 99-108). -/
def sensitiveFiles : List (String × ℚ × String) :=
  [("/etc/passwd", 15, "Attempted to access password file"),
   ("/etc/shadow", 25, "Attempted to access shadow password file"),
   ("/etc/hosts", 10, "Attempted to access hosts file"),
   ("/proc/", 15, "Attempted to access process information"),
   ("/dev/", 20, "Attempted to access device files")]

/-- The sensitive-file loop (part_007 lines 110-115): each path whose
`open("<path>` string occurs in the trace adds its weight. -/
def sensitiveScore (trace : String) : ℚ × List String :=
  scoreFold (fun f => containsSubstring trace ("open(\"" ++ f.1))
    (fun f => f.2.1) (fun f => f.2.2) sensitiveFiles (0, [])

/-- The trace-interpretation core of `behaviorAnalyze` (part_007 lines
53-127): sum the four category scores, force the score to 0 when no behavior
was recorded (lines 118-120), and clamp at 100 (lines 123-125). -/
def behaviorInterpret (trace : String) : BehaviorAnalysisResult :=
  let fo := fileOpsScore trace
  let co := connectScore trace
  let cm := commandsScore trace
  let se := sensitiveScore trace
  let score := fo.1 + co.1 + cm.1 + se.1
  let behaviors := fo.2 ++ co.2 ++ cm.2 ++ se.2
  let score := if behaviors = [] then 0 else score
  { Score := if score > 100 then 100 else score, Behaviors := behaviors }

/-- First suffix of `l` that starts with `pat`, minus that `pat` occurrence;
used only to state the spec's per-operation reading of the exclusion. -/
def afterFirst (pat : List Char) : List Char → Option (List Char)
  | [] => none
  | c :: rest =>
    if pat.isPrefixOf (c :: rest) then some (List.drop pat.length (c :: rest))
    else afterFirst pat rest

/-- Target path of the first `<pat>"..."` occurrence in the trace: the text
between the quote following `pat` and the next quote. -/
def fileOpTarget (trace pat : String) : String :=
  match afterFirst (pat.toList ++ ['"']) trace.toList with
  | some rest => String.mk (rest.takeWhile (fun c => c != '"'))
  | none => ""

/-- Modelled from the spec (claim C5 wording): a dangerous file operation
found in the trace is excluded exactly when THAT OPERATION's target path
contains a known-benign prefix (`/tmp/` or `/var/cache/`).  This is the
claim's per-operation reading, stated for comparison with the source's
`fileOpsScore`; it is not what the source implements. -/
def fileOpsScoreSpec (trace : String) : ℚ :=
  (scoreFold
    (fun op => containsSubstring trace op.1 &&
      !(containsSubstring (fileOpTarget trace op.1) "/tmp/") &&
      !(containsSubstring (fileOpTarget trace op.1) "/var/cache/"))
    (fun op => op.2.1) (fun op => op.2.2) dangerousFileOps (0, [])).1

/-! ## MLScorer (src/pkg/mlmodel/model_loader.go and src/unnamed/part_006) -/

/-- `ModelData` from model_loader.go lines 12-16. -/
structure ModelData where
  Weights : List ℚ
  Threshold : ℚ
  FeatureCount : ℕ
deriving DecidableEq, Repr

/-- `Model` from model_loader.go lines 19-26 (the path, timestamp and lock
are irrelevant to prediction and omitted). -/
structure Model where
  FeatureCount : ℕ
  Weights : List ℚ
  Threshold : ℚ
deriving DecidableEq, Repr

/-- `LoadModel` (model_loader.go lines 29-49) after file reading and JSON
decoding (abstracted): the decoded data is installed verbatim, with no
validation that `Weights` has `FeatureCount` entries. -/
def LoadModel (modelData : ModelData) : Model :=
  { FeatureCount := modelData.FeatureCount,
    Weights := modelData.Weights,
    Threshold := modelData.Threshold }

/-- Failure modes of `Predict`: the explicit dimension-mismatch error
(model_loader.go line 57), and the runtime index-out-of-range panic raised
by `m.ModelData.Weights[i]` when the weight vector is too short. -/
inductive PredictErr where
  | dimensionMismatch (expected got : ℕ)
  | indexOutOfRange
deriving DecidableEq, Repr

/-- The dot-product loop of `Predict` (model_loader.go lines 61-64):
`score += feature * Weights[i]` over the features; `none` models the Go
panic at the first out-of-bounds weight access. -/
def dotWeights : List ℚ → List ℚ → Option ℚ
  | [], _ => some 0
  | _ :: _, [] => none
  | f :: fs, w :: ws => (dotWeights fs ws).map (fun s => f * w + s)

/-- `Model.Predict` (model_loader.go lines 52-74): check only that the
feature vector length equals the declared `FeatureCount`, run the dot
product, and clamp the score to `[0, 1]`. -/
def Predict (m : Model) (features : List ℚ) : Except PredictErr ℚ :=
  if features.length ≠ m.FeatureCount then
    Except.error (PredictErr.dimensionMismatch m.FeatureCount features.length)
  else
    match dotWeights features m.Weights with
    | none => Except.error PredictErr.indexOutOfRange
    | some score =>
      Except.ok (if score > 1 then 1 else if score < 0 then 0 else score)

/-- The dangerous-function list of `extractFeatures` (part_006 line 41). -/
def dangerousFuncs : List String :=
  ["eval(", "system(", "exec(", "shell_exec(", "passthru("]

/-- The superglobal list of `extractFeatures` (part_006 line 52). -/
def superGlobals : List String :=
  ["$_POST", "$_GET", "$_REQUEST", "$_SERVER"]

/-- The file-operation list of `extractFeatures` (part_006 line 60). -/
def mlFileOps : List String :=
  ["chmod(", "chown(", "fopen(", "file_put_contents("]

/-- `extractFeatures` (part_006 lines 33-68): the fixed 5-dimensional
feature vector (content length, dangerous-function count, `base64_decode`
count, superglobal count, file-operation count). -/
def extractFeatures (content : String) : List ℚ :=
  [(content.length : ℚ),
   ((dangerousFuncs.map (fun f => countOccurrences content f)).sum : ℕ),
   (countOccurrences content "base64_decode" : ℚ),
   ((superGlobals.map (fun f => countOccurrences content f)).sum : ℕ),
   ((mlFileOps.map (fun f => countOccurrences content f)).sum : ℕ)]

/-- `mlDetect` (part_006 lines 15-30): extract features, predict, and scale
the `[0, 1]` probability to a 0-100 score. -/
def mlDetect (m : Model) (content : String) : Except PredictErr ℚ :=
  match Predict m (extractFeatures content) with
  | Except.error e => Except.error e
  | Except.ok score => Except.ok (score * 100)

/-! ## Detector composite scoring (detector.go, `calculateTotalScore`
lines 110-173 and `Detect` lines 57-107) -/

/-- Feature-matching weight 0.5 (detector.go line 113). -/
def wFeature : ℚ := 5 / 10

/-- Behavior-analysis weight 0.3 (detector.go line 114). -/
def wBehavior : ℚ := 3 / 10

/-- Machine-learning weight 0.2 (detector.go line 115). -/
def wMl : ℚ := 2 / 10

/-- Lines 122-126: when behavior analysis is enabled and no behavior was
recorded, the stored behavior score is reset to 0 before blending. -/
def applyNoBehaviorZeroing (behaviorEnabled : Bool) (r : DetectionResult) :
    DetectionResult :=
  if behaviorEnabled ∧ r.Behaviors = [] then { r with BehaviorScore := 0 } else r

/-- Lines 131-135: when ML is enabled, the feature score is exactly 0 and no
behavior was recorded, the stored ML score is dampened to 10% of its value. -/
def applyMlDampening (mlEnabled : Bool) (r : DetectionResult) : DetectionResult :=
  if mlEnabled ∧ r.FeatureScore = 0 ∧ r.Behaviors = [] then
    { r with MLScore := r.MLScore * (1 / 10) }
  else r

/-- The `totalScore` accumulator of `calculateTotalScore` (lines 118-137):
feature always contributes, behavior and ML only when enabled. -/
def blendNumerator (behaviorEnabled mlEnabled : Bool) (r : DetectionResult) : ℚ :=
  r.FeatureScore * wFeature
    + (if behaviorEnabled then r.BehaviorScore * wBehavior else 0)
    + (if mlEnabled then r.MLScore * wMl else 0)

/-- The `totalWeight` accumulator of `calculateTotalScore` (lines 119-137):
the weights of exactly the enabled methods. -/
def blendDenominator (behaviorEnabled mlEnabled : Bool) : ℚ :=
  wFeature + (if behaviorEnabled then wBehavior else 0)
    + (if mlEnabled then wMl else 0)

/-- The blended weighted average (line 141), computed on the result after
the zeroing and dampening adjustments. -/
def blendedScore (behaviorEnabled mlEnabled : Bool) (r0 : DetectionResult) : ℚ :=
  let r := applyMlDampening mlEnabled (applyNoBehaviorZeroing behaviorEnabled r0)
  blendNumerator behaviorEnabled mlEnabled r / blendDenominator behaviorEnabled mlEnabled

/-- The threshold `switch` of `calculateTotalScore` (lines 144-157), applied
to the blended score before the two overrides. -/
def thresholdClassify (totalScore featureScore : ℚ) : RiskLevel × Bool :=
  if totalScore ≥ 85 then (RiskLevel.high, true)
  else if totalScore ≥ 70 then (RiskLevel.medium, decide (featureScore > 80))
  else if totalScore ≥ 40 then (RiskLevel.low, false)
  else (RiskLevel.safe, false)

/-- `calculateTotalScore` (detector.go lines 110-173): adjust the stored
scores, blend, classify by thresholds, then apply the feature-score-above-90
override (lines 160-163) followed by the all-clear override (lines 166-172)
which forces SAFE and caps the total at 30. -/
def calculateTotalScore (behaviorEnabled mlEnabled : Bool)
    (r0 : DetectionResult) : DetectionResult :=
  let r := applyMlDampening mlEnabled (applyNoBehaviorZeroing behaviorEnabled r0)
  let total := blendedScore behaviorEnabled mlEnabled r0
  let cls := thresholdClassify total r.FeatureScore
  let cls := if r.FeatureScore > 90 then (RiskLevel.high, true) else cls
  if r.FeatureScore = 0 ∧ r.Behaviors = [] then
    { r with TotalScore := if total > 30 then 30 else total,
             RiskLevel := RiskLevel.safe, IsWebshell := false }
  else
    { r with TotalScore := total, RiskLevel := cls.1, IsWebshell := cls.2 }

/-- Stated from the spec (§3 ScoringWeights and §4.4 steps 1-3): the
normalized weighted average over exactly the enabled methods, behavior score
forced to 0 when no behaviors were found and ML dampened to 10% when the
feature score is 0 and no behaviors were found; disabled methods are
excluded from numerator and denominator alike.  For comparison with the
source's `blendedScore`. -/
def weightedAverageSpec (behaviorEnabled mlEnabled : Bool)
    (featureScore behaviorScore mlScore : ℚ) (behaviors : List String) : ℚ :=
  let methods : List (ℚ × ℚ × Bool) :=
    [(wFeature, featureScore, true),
     (wBehavior, if behaviors = [] then 0 else behaviorScore, behaviorEnabled),
     (wMl, if featureScore = 0 ∧ behaviors = [] then mlScore * (1 / 10) else mlScore,
      mlEnabled)]
  let enabled := methods.filter (fun m => m.2.2)
  ((enabled.map (fun m => m.1 * m.2.1)).sum) / ((enabled.map (fun m => m.1)).sum)

/-- The result-assembly part of `Detect` (detector.go lines 57-103): install
the feature result, the behavior result when enabled and successful (a
failure is only logged, leaving the zero values), the ML score when enabled
and successful, then run `calculateTotalScore`. -/
def detectFromOutcomes (cfg : DetectorConfig) (filePath : String)
    (featureResult : FeatureMatchResult)
    (behaviorOutcome : Except String BehaviorAnalysisResult)
    (mlOutcome : Except PredictErr ℚ) : DetectionResult :=
  let base : DetectionResult :=
    { FilePath := filePath, IsWebshell := false, RiskLevel := RiskLevel.safe,
      FeatureScore := 0, BehaviorScore := 0, MLScore := 0,
      MatchedFeatures := [], Behaviors := [], TotalScore := 0 }
  let r1 := { base with FeatureScore := featureResult.Score,
                        MatchedFeatures := featureResult.Matches }
  let r2 :=
    if cfg.behaviorEnabled then
      match behaviorOutcome with
      | Except.ok b => { r1 with BehaviorScore := b.Score, Behaviors := b.Behaviors }
      | Except.error _ => r1
    else r1
  let r3 :=
    if cfg.mlEnabled then
      match mlOutcome with
      | Except.ok s => { r2 with MLScore := s }
      | Except.error _ => r2
    else r2
  calculateTotalScore cfg.behaviorEnabled cfg.mlEnabled r3

/-- `Detect` (detector.go lines 57-107) with the effectful collaborators
abstracted: file content enters as its length (for the size check) and a
regex-match oracle; the YARA engine as per-rule-file outcomes; the sandbox
and the ML model as their outcomes.  A feature-matching failure aborts the
detection; behavior/ML failures degrade inside `detectFromOutcomes`. -/
def Detect (cfg : DetectorConfig) (filePath : String) (contentLen : ℕ)
    (matched : String → Bool) (ruleDirs : List (List RuleFileOutcome))
    (behaviorOutcome : Except String BehaviorAnalysisResult)
    (mlOutcome : Except PredictErr ℚ) : Except String DetectionResult :=
  match featureMatch cfg contentLen matched ruleDirs with
  | Except.error e => Except.error ("feature matching failed: " ++ e)
  | Except.ok fr =>
    Except.ok (detectFromOutcomes cfg filePath fr behaviorOutcome mlOutcome)

/-! ## Scan entry points (src/internal/scanner/scanner.go `BaseScanner.Scan`
lines 47-83 and src/internal/scanner/manual_scanner.go
`ManualScanner.Start` lines 32-69).  Printing and storage are effectful
collaborators whose failures are only logged; the embedded functions return
the error outcome, the only observable the claims concern. -/

/-- `BaseScanner.Scan`: stat failure and detection failure are setup errors;
a successful detection classified as a webshell returns the dedicated
`webshell detected in file` error; otherwise `nil`. -/
def baseScan (fileExists : Bool)
    (detectOutcome : Except String DetectionResult) (path : String) :
    Option String :=
  if !fileExists then some "file not found"
  else
    match detectOutcome with
    | Except.error e => some ("detection failed: " ++ e)
    | Except.ok r =>
      if r.IsWebshell then some ("webshell detected in file: " ++ path)
      else none

/-- `ManualScanner.Start`: errors only for scanner misuse (already running)
or a detector failure; after a successful detection the result is printed
and stored and `nil` is returned, whatever `IsWebshell` is.  `Start` calls
`s.detector.Detect` directly and never calls `BaseScanner.Scan`. -/
def manualStart (isRunning : Bool)
    (detectOutcome : Except String DetectionResult) : Option String :=
  if isRunning then some "scanner is already running"
  else
    match detectOutcome with
    | Except.error e => some ("scan failed: " ++ e)
    | Except.ok _ => none

/-! ## Derived helper and concrete inputs used by the theorems below -/

/-- The score that `featureMatch` assigns on its success path: regex score
plus (when YARA is enabled) YARA score, clamped at 100.  Derived from the
source solely to name the success-path score in the theorems. -/
def featureScoreOf (cfg : DetectorConfig) (matched : String → Bool)
    (ruleDirs : List (List RuleFileOutcome)) : ℚ :=
  let pre := (matchRegexPatterns matched).1 +
    (if cfg.yaraEnabled then (matchYaraRules ruleDirs).1 else 0)
  if pre > 100 then 100 else pre

/-- A detection result with every field at the Go zero value (risk level at
`safe` standing for the never-read zero string). -/
def detBase : DetectionResult :=
  { FilePath := "", IsWebshell := false, RiskLevel := RiskLevel.safe,
    FeatureScore := 0, BehaviorScore := 0, MLScore := 0,
    MatchedFeatures := [], Behaviors := [], TotalScore := 0 }

/-- A result entering `calculateTotalScore` with feature score 100 (the
regex phase alone produces this for content matching two 100-weight
patterns, cf. spec Scenario A). -/
def r100 : DetectionResult := { detBase with FeatureScore := 100 }

/-- A reachable webshell-positive detection result: feature score 100,
behavior and ML disabled. -/
def webshellResultExample : DetectionResult := calculateTotalScore false false r100

/-- Every detection method enabled, generous size limit. -/
def cfg0 : DetectorConfig :=
  { behaviorEnabled := true, mlEnabled := true, yaraEnabled := true,
    yaraMaxFileSize := 100 }

/-- YARA disabled, size limit 4 bytes. -/
def cfgSmall : DetectorConfig :=
  { behaviorEnabled := false, mlEnabled := false, yaraEnabled := false,
    yaraMaxFileSize := 4 }

/-- Two rule directories: one whose only rule file fails to open, one whose
rule file compiles but matches nothing. -/
def dirs0 : List (List RuleFileOutcome) :=
  [[RuleFileOutcome.failure "cannot open rule file"],
   [RuleFileOutcome.ruleMatches []]]

/-- A successful behavior analysis reporting no behaviors but a stale
nonzero score (the zeroing defense must neutralize it). -/
def bo77 : Except String BehaviorAnalysisResult :=
  Except.ok { Score := 77, Behaviors := [] }

/-- Decoded model file declaring `feature_count = 5` but listing only three
weights; `LoadModel` accepts it unchecked. -/
def badModelData : ModelData :=
  { Weights := [1 / 10, 2 / 10, 3 / 10], Threshold := 1 / 2, FeatureCount := 5 }

/-- The model `LoadModel` builds from `badModelData`. -/
def badModel : Model := LoadModel badModelData

/-- A well-formed 5-feature input vector. -/
def badFeatures : List ℚ := [1, 1, 1, 1, 1]

/-- A model whose weight vector really has the declared five entries. -/
def goodModel : Model :=
  { FeatureCount := 5, Weights := [1 / 10, 1 / 10, 1 / 10, 1 / 10, 1 / 10],
    Threshold := 1 / 2 }

/-- A well-formed 5-feature input vector for `goodModel`. -/
def goodFeatures : List ℚ := [1, 2, 3, 4, 5]

/-- A strace capture whose `unlink` targets a non-benign path while an
unrelated `openat` line mentions `/tmp/`: under the per-target reading the
unlink must score 30, but the source's whole-trace check suppresses it. -/
def cexTrace : String :=
  "unlink(\"/home/user/data.php\") = 0 openat(AT_FDCWD, \"/tmp/strace-log\") = 3"

/-! ## Helper lemmas -/

@[simp] theorem applyNoBehaviorZeroing_FilePath (bE : Bool) (r : DetectionResult) :
    (applyNoBehaviorZeroing bE r).FilePath = r.FilePath := by
  unfold applyNoBehaviorZeroing; split_ifs <;> rfl

@[simp] theorem applyNoBehaviorZeroing_FeatureScore (bE : Bool) (r : DetectionResult) :
    (applyNoBehaviorZeroing bE r).FeatureScore = r.FeatureScore := by
  unfold applyNoBehaviorZeroing; split_ifs <;> rfl

@[simp] theorem applyNoBehaviorZeroing_MLScore (bE : Bool) (r : DetectionResult) :
    (applyNoBehaviorZeroing bE r).MLScore = r.MLScore := by
  unfold applyNoBehaviorZeroing; split_ifs <;> rfl

@[simp] theorem applyNoBehaviorZeroing_Behaviors (bE : Bool) (r : DetectionResult) :
    (applyNoBehaviorZeroing bE r).Behaviors = r.Behaviors := by
  unfold applyNoBehaviorZeroing; split_ifs <;> rfl

@[simp] theorem applyNoBehaviorZeroing_BehaviorScore (bE : Bool) (r : DetectionResult) :
    (applyNoBehaviorZeroing bE r).BehaviorScore =
      if bE ∧ r.Behaviors = [] then 0 else r.BehaviorScore := by
  unfold applyNoBehaviorZeroing; split_ifs <;> rfl

@[simp] theorem applyMlDampening_FilePath (mE : Bool) (r : DetectionResult) :
    (applyMlDampening mE r).FilePath = r.FilePath := by
  unfold applyMlDampening; split_ifs <;> rfl

@[simp] theorem applyMlDampening_FeatureScore (mE : Bool) (r : DetectionResult) :
    (applyMlDampening mE r).FeatureScore = r.FeatureScore := by
  unfold applyMlDampening; split_ifs <;> rfl

@[simp] theorem applyMlDampening_BehaviorScore (mE : Bool) (r : DetectionResult) :
    (applyMlDampening mE r).BehaviorScore = r.BehaviorScore := by
  unfold applyMlDampening; split_ifs <;> rfl

@[simp] theorem applyMlDampening_Behaviors (mE : Bool) (r : DetectionResult) :
    (applyMlDampening mE r).Behaviors = r.Behaviors := by
  unfold applyMlDampening; split_ifs <;> rfl

@[simp] theorem applyMlDampening_MLScore (mE : Bool) (r : DetectionResult) :
    (applyMlDampening mE r).MLScore =
      if mE ∧ r.FeatureScore = 0 ∧ r.Behaviors = [] then r.MLScore * (1 / 10)
      else r.MLScore := by
  unfold applyMlDampening; split_ifs <;> rfl

theorem scoreFold_cons {α : Type} (pr : α → Bool) (f : α → ℚ) (g : α → String)
    (x : α) (xs : List α) (init : ℚ × List String) :
    scoreFold pr f g (x :: xs) init =
      scoreFold pr f g xs (if pr x then (init.1 + f x, init.2 ++ [g x]) else init) := by
  unfold scoreFold
  simp only [List.foldl_cons]

theorem scoreFold_fst {α : Type} (pr : α → Bool) (f : α → ℚ) (g : α → String)
    (l : List α) : ∀ init : ℚ × List String,
    (scoreFold pr f g l init).1 = init.1 + ((l.filter pr).map f).sum := by
  induction l with
  | nil => intro init; simp [scoreFold]
  | cons x xs ih =>
    intro init
    rw [scoreFold_cons]
    by_cases h : pr x
    · simp only [h, if_true, List.filter_cons_of_pos, List.map_cons, List.sum_cons,
        ih]
      ring
    · simp only [h, if_false, List.filter_cons_of_neg, ih]
      simp [h]

theorem scoreFold_eq_init {α : Type} (pr : α → Bool) (f : α → ℚ) (g : α → String)
    (l : List α) (init : ℚ × List String) (h : ∀ x ∈ l, pr x = false) :
    scoreFold pr f g l init = init := by
  induction l generalizing init with
  | nil => rfl
  | cons x xs ih =>
    rw [scoreFold_cons, h x (List.mem_cons_self x xs)]
    simp only [Bool.false_eq_true, if_false]
    exact ih init (fun y hy => h y (List.mem_cons_of_mem x hy))

theorem scoreFold_fst_nonneg {α : Type} (pr : α → Bool) (f : α → ℚ)
    (g : α → String) (l : List α) (h : ∀ x ∈ l, 0 ≤ f x) :
    0 ≤ (scoreFold pr f g l (0, [])).1 := by
  rw [scoreFold_fst]
  simp only [zero_add]
  apply List.sum_nonneg
  intro q hq
  simp only [List.mem_map] at hq
  obtain ⟨a, ha, rfl⟩ := hq
  exact h a (List.mem_of_mem_filter ha)

theorem walkRuleFiles_fst_nonneg : ∀ l : List RuleFileOutcome, 0 ≤ (walkRuleFiles l).1
  | [] => le_refl 0
  | RuleFileOutcome.failure _ :: _ => le_refl 0
  | RuleFileOutcome.ruleMatches ms :: rest => by
    have ih := walkRuleFiles_fst_nonneg rest
    unfold walkRuleFiles
    have h50 : (0 : ℚ) ≤ 50 * (ms.length : ℚ) := by positivity
    simp only
    linarith

theorem walkRuleFiles_fst_zero : ∀ l : List RuleFileOutcome,
    (∀ o ∈ l, ruleMatchList o = []) → (walkRuleFiles l).1 = 0
  | [], _ => rfl
  | RuleFileOutcome.failure _ :: _, _ => rfl
  | RuleFileOutcome.ruleMatches ms :: rest, h => by
    have hms : ms = [] := h _ (List.mem_cons_self _ _)
    have ih := walkRuleFiles_fst_zero rest
      (fun o ho => h o (List.mem_cons_of_mem _ ho))
    unfold walkRuleFiles
    simp [hms, ih]

theorem foldl_yaraAccumulate_fst_nonneg :
    ∀ (dirs : List (List RuleFileOutcome)) (acc : ℚ × List String),
      0 ≤ acc.1 → 0 ≤ (List.foldl yaraAccumulate acc dirs).1
  | [], _, h => h
  | d :: ds, acc, h => by
    apply foldl_yaraAccumulate_fst_nonneg ds
    have := walkRuleFiles_fst_nonneg d
    unfold yaraAccumulate
    simp only
    linarith

theorem foldl_yaraAccumulate_fst_zero :
    ∀ (dirs : List (List RuleFileOutcome)) (acc : ℚ × List String),
      (∀ d ∈ dirs, (walkRuleFiles d).1 = 0) →
      (List.foldl yaraAccumulate acc dirs).1 = acc.1
  | [], _, _ => rfl
  | d :: ds, acc, h => by
    rw [List.foldl_cons, foldl_yaraAccumulate_fst_zero ds _
      (fun x hx => h x (List.mem_cons_of_mem _ hx))]
    unfold yaraAccumulate
    simp [h d (List.mem_cons_self _ _)]

theorem matchYaraRules_err (ruleDirs : List (List RuleFileOutcome)) :
    (matchYaraRules ruleDirs).2.2 = none := rfl

theorem matchYaraRules_snd (ruleDirs : List (List RuleFileOutcome)) :
    (matchYaraRules ruleDirs).2.1 = (ruleDirs.foldl yaraAccumulate (0, [])).2 := rfl

theorem matchYaraRules_fst_nonneg (ruleDirs : List (List RuleFileOutcome)) :
    0 ≤ (matchYaraRules ruleDirs).1 := by
  show (0 : ℚ) ≤
    if (ruleDirs.foldl yaraAccumulate (0, [])).1 > 100 then 100
    else (ruleDirs.foldl yaraAccumulate (0, [])).1
  split_ifs with h
  · norm_num
  · exact foldl_yaraAccumulate_fst_nonneg ruleDirs (0, []) (le_refl 0)

theorem matchYaraRules_fst_zero (ruleDirs : List (List RuleFileOutcome))
    (h : ∀ d ∈ ruleDirs, ∀ o ∈ d, ruleMatchList o = []) :
    (matchYaraRules ruleDirs).1 = 0 := by
  show (if (ruleDirs.foldl yaraAccumulate (0, [])).1 > 100 then 100
    else (ruleDirs.foldl yaraAccumulate (0, [])).1) = 0
  rw [foldl_yaraAccumulate_fst_zero ruleDirs (0, [])
    (fun d hd => walkRuleFiles_fst_zero d (h d hd))]
  norm_num

theorem webshellPatterns_wt_nonneg : ∀ p ∈ WebshellPatterns, 0 ≤ p.2 := by
  intro p hp
  simp only [WebshellPatterns, List.mem_cons, List.mem_singleton] at hp
  rcases hp with rfl | rfl | rfl | rfl | rfl | h
  · norm_num
  · norm_num
  · norm_num
  · norm_num
  · norm_num
  · simp at h

theorem matchRegexPatterns_fst_nonneg (matched : String → Bool) :
    0 ≤ (matchRegexPatterns matched).1 :=
  scoreFold_fst_nonneg _ _ _ _ (fun p hp => webshellPatterns_wt_nonneg p hp)

theorem matchRegexPatterns_fst_zero (matched : String → Bool)
    (h : ∀ p ∈ WebshellPatterns, matched p.1 = false) :
    (matchRegexPatterns matched).1 = 0 := by
  unfold matchRegexPatterns
  rw [scoreFold_eq_init _ _ _ _ _ (fun p hp => h p hp)]

theorem featureMatch_ok_of_size (cfg : DetectorConfig) (contentLen : ℕ)
    (matched : String → Bool) (ruleDirs : List (List RuleFileOutcome))
    (h : ¬ (contentLen : ℤ) > cfg.yaraMaxFileSize) :
    ∃ fr, featureMatch cfg contentLen matched ruleDirs = Except.ok fr ∧
      fr.Score = featureScoreOf cfg matched ruleDirs := by
  unfold featureMatch
  rw [if_neg h]
  cases hY : cfg.yaraEnabled with
  | false =>
    simp only [featureScoreOf, hY, Bool.false_eq_true, if_false, add_zero]
    exact ⟨_, rfl, rfl⟩
  | true =>
    rcases hy : matchYaraRules ruleDirs with ⟨s, l, e⟩
    have he : e = none := by
      have h2 := matchYaraRules_err ruleDirs
      rw [hy] at h2
      exact h2
    subst he
    have hs : (matchYaraRules ruleDirs).1 = s := by rw [hy]
    simp only [featureScoreOf, hY, hy, if_true, hs]
    exact ⟨_, rfl, rfl⟩

theorem calc_zero_safe (bE mE : Bool) (r : DetectionResult)
    (hf : r.FeatureScore = 0) (hb : r.Behaviors = []) :
    (calculateTotalScore bE mE r).RiskLevel = RiskLevel.safe ∧
      (calculateTotalScore bE mE r).IsWebshell = false ∧
      (calculateTotalScore bE mE r).TotalScore ≤ 30 := by
  refine ⟨?_, ?_, ?_⟩
  · simp [calculateTotalScore, hf, hb]
  · simp [calculateTotalScore, hf, hb]
  · simp only [calculateTotalScore, applyMlDampening_FeatureScore,
      applyNoBehaviorZeroing_FeatureScore, applyMlDampening_Behaviors,
      applyNoBehaviorZeroing_Behaviors, hf, hb, and_self, if_true]
    split_ifs with hgt
    · norm_num
    · simp only [not_lt] at hgt
      simpa using hgt

theorem detectFromOutcomes_eq (cfg : DetectorConfig) (filePath : String)
    (fr : FeatureMatchResult) (bo : Except String BehaviorAnalysisResult)
    (mo : Except PredictErr ℚ) :
    detectFromOutcomes cfg filePath fr bo mo =
      calculateTotalScore cfg.behaviorEnabled cfg.mlEnabled
        { FilePath := filePath, IsWebshell := false, RiskLevel := RiskLevel.safe,
          FeatureScore := fr.Score,
          BehaviorScore :=
            if cfg.behaviorEnabled then
              match bo with
              | Except.ok b => b.Score
              | Except.error _ => 0
            else 0,
          MLScore :=
            if cfg.mlEnabled then
              match mo with
              | Except.ok s => s
              | Except.error _ => 0
            else 0,
          MatchedFeatures := fr.Matches,
          Behaviors :=
            if cfg.behaviorEnabled then
              match bo with
              | Except.ok b => b.Behaviors
              | Except.error _ => []
            else [],
          TotalScore := 0 } := by
  unfold detectFromOutcomes
  cases hB : cfg.behaviorEnabled <;> cases hM : cfg.mlEnabled <;>
    cases bo <;> cases mo <;> simp

theorem dotWeights_isSome : ∀ (fs ws : List ℚ), fs.length ≤ ws.length →
    ∃ s, dotWeights fs ws = some s
  | [], _, _ => ⟨0, rfl⟩
  | _ :: _, [], h => by simp at h
  | f :: fs, w :: ws, h => by
    obtain ⟨s, hs⟩ := dotWeights_isSome fs ws (by simpa using h)
    exact ⟨f * w + s, by simp [dotWeights, hs]⟩

theorem r100_webshell : webshellResultExample.IsWebshell = true := by
  norm_num [webshellResultExample, calculateTotalScore, blendedScore,
    blendNumerator, blendDenominator, thresholdClassify, r100, detBase,
    wFeature, wBehavior, wMl, applyNoBehaviorZeroing, applyMlDampening]

/-! ## Claim theorems -/

/-- C1: for every input content for which no regex pattern matches, no YARA
rule matches, and behavior analysis observes no behaviors, the
`DetectionResult` produced by `Detect` has risk level SAFE, `IsWebshell`
false, and `TotalScore ≤ 30`, regardless of the ML score value. -/
theorem clean_content_is_safe (cfg : DetectorConfig) (filePath : String)
    (contentLen : ℕ) (matched : String → Bool)
    (ruleDirs : List (List RuleFileOutcome))
    (behaviorOutcome : Except String BehaviorAnalysisResult)
    (mlOutcome : Except PredictErr ℚ)
    (hsize : (contentLen : ℤ) ≤ cfg.yaraMaxFileSize)
    (hregex : ∀ p ∈ WebshellPatterns, matched p.1 = false)
    (hyara : ∀ d ∈ ruleDirs, ∀ o ∈ d, ruleMatchList o = [])
    (hbeh : ∀ b, behaviorOutcome = Except.ok b → b.Behaviors = []) :
    ∃ res,
      Detect cfg filePath contentLen matched ruleDirs behaviorOutcome mlOutcome =
        Except.ok res ∧
      res.RiskLevel = RiskLevel.safe ∧ res.IsWebshell = false ∧
      res.TotalScore ≤ 30 := by
  obtain ⟨fr, hfr, hsc⟩ :=
    featureMatch_ok_of_size cfg contentLen matched ruleDirs (not_lt.mpr hsize)
  have hfr0 : fr.Score = 0 := by
    rw [hsc]
    simp only [featureScoreOf, matchRegexPatterns_fst_zero matched hregex,
      matchYaraRules_fst_zero ruleDirs hyara, ite_self, zero_add]
    norm_num
  refine ⟨detectFromOutcomes cfg filePath fr behaviorOutcome mlOutcome, ?_, ?_⟩
  · unfold Detect
    rw [hfr]
  · rw [detectFromOutcomes_eq]
    apply calc_zero_safe
    · exact hfr0
    · cases hB : cfg.behaviorEnabled
      · simp
      · cases hbo : behaviorOutcome with
        | error e => simp
        | ok b => simp [hbeh b hbo]

/-- Witness for C1: with every method enabled, a non-matching oracle, one
failing and one empty rule directory, a behavior result carrying a stale
score 77 but no behaviors, and an (out-of-range) ML score of 99, the
detection still comes out SAFE, not a webshell, total at most 30. -/
theorem clean_content_is_safe_witness :
    ∃ res,
      Detect cfg0 "upload.php" 0 (fun _ => false) dirs0 bo77 (Except.ok 99) =
        Except.ok res ∧
      res.RiskLevel = RiskLevel.safe ∧ res.IsWebshell = false ∧
      res.TotalScore ≤ 30 :=
  clean_content_is_safe cfg0 "upload.php" 0 (fun _ => false) dirs0 bo77
    (Except.ok 99) (by norm_num [cfg0]) (fun p _ => rfl) (by decide)
    (by intro b hb; cases hb; rfl)

/-- C2: whenever the feature score exceeds 90, the final result is HIGH and
`IsWebshell` is true, whatever the behavior and ML scores and the threshold
classification outcome are. -/
theorem high_feature_forces_webshell (bE mE : Bool) (r : DetectionResult)
    (h : r.FeatureScore > 90) :
    (calculateTotalScore bE mE r).RiskLevel = RiskLevel.high ∧
      (calculateTotalScore bE mE r).IsWebshell = true := by
  have h0 : ¬r.FeatureScore = 0 := by
    intro h0
    rw [h0] at h
    norm_num at h
  constructor <;> simp [calculateTotalScore, h0, h]

/-- Witness for C2: feature score 100 (with behavior and ML disabled) is
classified HIGH and a webshell. -/
theorem high_feature_forces_webshell_witness :
    (calculateTotalScore false false r100).RiskLevel = RiskLevel.high ∧
      (calculateTotalScore false false r100).IsWebshell = true :=
  high_feature_forces_webshell false false r100 (by norm_num [r100, detBase])

/-- C3: the threshold classification applied to the blended score before the
overrides maps `≥ 85` to HIGH/webshell, `[70, 85)` to MEDIUM with webshell
iff the feature score exceeds 80, `[40, 70)` to LOW/not-webshell, and
`< 40` to SAFE/not-webshell. -/
theorem threshold_classification (total featureScore : ℚ) :
    (total ≥ 85 → thresholdClassify total featureScore = (RiskLevel.high, true)) ∧
    (70 ≤ total ∧ total < 85 →
      thresholdClassify total featureScore =
        (RiskLevel.medium, decide (featureScore > 80))) ∧
    (40 ≤ total ∧ total < 70 →
      thresholdClassify total featureScore = (RiskLevel.low, false)) ∧
    (total < 40 → thresholdClassify total featureScore = (RiskLevel.safe, false)) := by
  refine ⟨fun h => ?_, fun h => ?_, fun h => ?_, fun h => ?_⟩ <;>
    unfold thresholdClassify
  · rw [if_pos h]
  · rw [if_neg (by rcases h with ⟨h1, h2⟩; intro hc; linarith),
      if_pos (by linarith [h.1])]
  · rw [if_neg (by rcases h with ⟨h1, h2⟩; intro hc; linarith),
      if_neg (by rcases h with ⟨h1, h2⟩; intro hc; linarith),
      if_pos (by linarith [h.1])]
  · rw [if_neg (by intro hc; linarith), if_neg (by intro hc; linarith),
      if_neg (by intro hc; linarith)]

/-- Witness for C3: a blended score of 75 with feature score 90 classifies
as MEDIUM with the webshell flag given by the feature-score test. -/
theorem threshold_classification_witness :
    thresholdClassify 75 90 = (RiskLevel.medium, decide ((90 : ℚ) > 80)) :=
  (threshold_classification 75 90).2.1 ⟨by norm_num, by norm_num⟩

/-- C4: the blended score computed by `calculateTotalScore` before the
overrides equals the normalized weighted average, with fixed weights
0.5/0.3/0.2, over exactly the enabled detection methods (behavior zeroed
when no behaviors were found, ML dampened to 10% when the feature score is
0 and no behaviors were found), disabled methods excluded from numerator
and denominator alike. -/
theorem blend_is_weighted_average (bE mE : Bool) (r : DetectionResult) :
    blendedScore bE mE r =
      weightedAverageSpec bE mE r.FeatureScore r.BehaviorScore r.MLScore
        r.Behaviors := by
  cases bE <;> cases mE <;>
    simp only [blendedScore, weightedAverageSpec, blendNumerator,
      blendDenominator, applyMlDampening_MLScore, applyMlDampening_BehaviorScore,
      applyMlDampening_FeatureScore, applyMlDampening_Behaviors,
      applyNoBehaviorZeroing_BehaviorScore, applyNoBehaviorZeroing_FeatureScore,
      applyNoBehaviorZeroing_Behaviors, List.filter, List.map_cons, List.map_nil,
      List.sum_cons, List.sum_nil, Bool.false_eq_true, false_and, if_false,
      true_and, if_true] <;>
    norm_num <;> (try split_ifs) <;> ring

/-- Counterexample for C5: in `cexTrace` the `unlink` target
`/home/user/data.php` contains no benign prefix, so the claimed
per-operation-target exclusion yields score 30, yet the source's
`fileOpsScore` yields 0 because an unrelated part of the trace mentions
`/tmp/`. -/
theorem fileOps_target_exclusion_cex :
    (fileOpsScore cexTrace).1 = 0 ∧ fileOpsScoreSpec cexTrace = 30 ∧
      (fileOpsScore cexTrace).1 ≠ fileOpsScoreSpec cexTrace := by
  have h1 : (fileOpsScore cexTrace).1 = 0 := by
    unfold fileOpsScore
    rw [scoreFold_eq_init _ _ _ _ _ (by decide)]
  have c1 : containsSubstring cexTrace "unlink(" = true := by decide
  have c2 : containsSubstring cexTrace "rmdir(" = false := by decide
  have c3 : containsSubstring cexTrace "chmod(" = false := by decide
  have c4 : containsSubstring cexTrace "chown(" = false := by decide
  have c5 : containsSubstring cexTrace "symlink(" = false := by decide
  have c6 : containsSubstring cexTrace "rename(" = false := by decide
  have t1 : containsSubstring (fileOpTarget cexTrace "unlink(") "/tmp/" = false := by
    decide
  have t2 : containsSubstring (fileOpTarget cexTrace "unlink(") "/var/cache/" =
      false := by decide
  have h2 : fileOpsScoreSpec cexTrace = 30 := by
    unfold fileOpsScoreSpec scoreFold dangerousFileOps
    simp only [List.foldl_cons, List.foldl_nil, c1, c2, c3, c4, c5, c6, t1, t2,
      Bool.true_and, Bool.and_true, Bool.false_and, Bool.and_false,
      Bool.not_false, Bool.not_true, if_true, if_false]
    norm_num
  exact ⟨h1, h2, by rw [h1, h2]; norm_num⟩

/-- C5 (amended): each dangerous file-operation substring found in the trace
contributes its fixed weight (30/20/20/15/10) independently of the others,
but the benign-prefix exclusion is global rather than per-operation: when
the whole trace contains `/tmp/` or `/var/cache/` anywhere, every dangerous
file operation is excluded from scoring. -/
theorem fileOps_global_exclusion (trace : String) :
    (fileOpsScore trace).1 =
      if containsSubstring trace "/tmp/" || containsSubstring trace "/var/cache/"
      then 0
      else ((dangerousFileOps.filter (fun op => containsSubstring trace op.1)).map
          (fun op => op.2.1)).sum := by
  unfold fileOpsScore
  rw [scoreFold_fst]
  cases htmp : containsSubstring trace "/tmp/" <;>
    cases hcache : containsSubstring trace "/var/cache/" <;>
    simp [htmp, hcache]

/-- Counterexample for C6: a reachable detection result classified as a
webshell for which the top-level manual entry point (`ManualScanner.Start`)
returns no error at all. -/
theorem manual_start_ignores_webshell_cex :
    webshellResultExample.IsWebshell = true ∧
      manualStart false (Except.ok webshellResultExample) = none :=
  ⟨r100_webshell, rfl⟩

/-- C6 (amended): the shared base `Scan` does return the dedicated error
whenever the detection result has `IsWebshell = true`, but the manual
top-level entry point `Start` does not route through `Scan`: it returns a
non-error outcome for the very same webshell-positive detection, erroring
only on setup/detection failures. -/
theorem base_scan_signals_webshell (r : DetectionResult) (path : String)
    (h : r.IsWebshell = true) :
    baseScan true (Except.ok r) path =
        some ("webshell detected in file: " ++ path) ∧
      manualStart false (Except.ok r) = none := by
  refine ⟨?_, rfl⟩
  simp [baseScan, h]

/-- Witness for C6 (amended): the concrete webshell-positive result makes
`Scan` return the webshell error while `Start` still returns none. -/
theorem base_scan_signals_webshell_witness :
    baseScan true (Except.ok webshellResultExample) "upload.php" =
        some ("webshell detected in file: " ++ "upload.php") ∧
      manualStart false (Except.ok webshellResultExample) = none :=
  base_scan_signals_webshell webshellResultExample "upload.php" r100_webshell

/-- C7: feature matching returns an error exactly when the content length
exceeds the configured maximum scan size; within the limit it succeeds for
every rule-directory content, including directories whose rule files fail
(those failures are only logged inside `matchYaraRules`). -/
theorem featureMatch_error_iff (cfg : DetectorConfig) (contentLen : ℕ)
    (matched : String → Bool) (ruleDirs : List (List RuleFileOutcome)) :
    (∃ e, featureMatch cfg contentLen matched ruleDirs = Except.error e) ↔
      (contentLen : ℤ) > cfg.yaraMaxFileSize := by
  constructor
  · rintro ⟨e, he⟩
    by_contra hP
    obtain ⟨fr, hfr, -⟩ :=
      featureMatch_ok_of_size cfg contentLen matched ruleDirs hP
    rw [hfr] at he
    exact Except.noConfusion he
  · intro h
    exact ⟨"file size exceeds maximum allowed size for YARA scanning", by
      unfold featureMatch
      rw [if_pos h]⟩

/-- Witness for C7: 5 bytes of content against a 4-byte limit produce an
error, even with a failing rule directory present. -/
theorem featureMatch_error_iff_witness :
    ∃ e, featureMatch cfgSmall 5 (fun _ => false) dirs0 = Except.error e :=
  (featureMatch_error_iff cfgSmall 5 (fun _ => false) dirs0).mpr
    (by norm_num [cfgSmall])

/-- C8: every sub-score lies in [0, 100] after clamping: the feature-match
score is a non-negative sum clamped above at 100, the behavior score is a
non-negative sum clamped above at 100 and forced to 0 when no behavior was
observed, and the ML score is the model prediction clamped to [0, 1] scaled
by 100. -/
theorem subscores_in_range :
    (∀ (cfg : DetectorConfig) (contentLen : ℕ) (matched : String → Bool)
        (ruleDirs : List (List RuleFileOutcome)) (fr : FeatureMatchResult),
        featureMatch cfg contentLen matched ruleDirs = Except.ok fr →
        0 ≤ fr.Score ∧ fr.Score ≤ 100) ∧
    (∀ trace : String,
        0 ≤ (behaviorInterpret trace).Score ∧
        (behaviorInterpret trace).Score ≤ 100 ∧
        ((behaviorInterpret trace).Behaviors = [] →
          (behaviorInterpret trace).Score = 0)) ∧
    (∀ (m : Model) (content : String) (s : ℚ),
        mlDetect m content = Except.ok s → 0 ≤ s ∧ s ≤ 100) := by
  refine ⟨?_, ?_, ?_⟩
  · intro cfg contentLen matched ruleDirs fr hfr
    by_cases hsz : (contentLen : ℤ) > cfg.yaraMaxFileSize
    · exfalso
      have herr : featureMatch cfg contentLen matched ruleDirs =
          Except.error "file size exceeds maximum allowed size for YARA scanning" := by
        unfold featureMatch
        rw [if_pos hsz]
      rw [hfr] at herr
      exact Except.noConfusion herr
    · obtain ⟨fr2, hfr2, hsc⟩ :=
        featureMatch_ok_of_size cfg contentLen matched ruleDirs hsz
      rw [hfr] at hfr2
      injection hfr2 with hfr3
      subst hfr3
      rw [hsc]
      have hreg := matchRegexPatterns_fst_nonneg matched
      have hyar := matchYaraRules_fst_nonneg ruleDirs
      simp only [featureScoreOf]
      constructor <;> split_ifs <;> linarith
  · intro trace
    have hfo : 0 ≤ (fileOpsScore trace).1 := by
      apply scoreFold_fst_nonneg
      intro x hx
      fin_cases hx <;> norm_num
    have hco : 0 ≤ (connectScore trace).1 := by
      unfold connectScore
      split_ifs <;> norm_num
    have hcm : 0 ≤ (commandsScore trace).1 := by
      apply scoreFold_fst_nonneg
      intro x _
      norm_num
    have hse : 0 ≤ (sensitiveScore trace).1 := by
      apply scoreFold_fst_nonneg
      intro x hx
      fin_cases hx <;> norm_num
    refine ⟨?_, ?_, ?_⟩
    · simp only [behaviorInterpret]
      split_ifs <;> linarith
    · simp only [behaviorInterpret]
      split_ifs <;> linarith
    · intro hB
      simp only [behaviorInterpret] at hB ⊢
      rw [if_pos hB]
      norm_num
  · intro m content s h
    unfold mlDetect at h
    rcases hP : Predict m (extractFeatures content) with e | sc
    · rw [hP] at h
      simp at h
    · rw [hP] at h
      injection h with h2
      unfold Predict at hP
      split_ifs at hP
      rcases hdw : dotWeights (extractFeatures content) m.Weights with _ | d
      · rw [hdw] at hP
        simp at hP
      · rw [hdw] at hP
        injection hP with h3
        rw [← h2, ← h3]
        constructor <;> split_ifs <;> linarith

/-- Witness for C8 (behavior conjunct at the empty trace). -/
theorem subscores_in_range_witness :
    0 ≤ (behaviorInterpret "").Score ∧ (behaviorInterpret "").Score ≤ 100 ∧
      ((behaviorInterpret "").Behaviors = [] → (behaviorInterpret "").Score = 0) :=
  subscores_in_range.2.1 ""

/-- C9: a result flagged as a webshell always has feature score above 90, or
total score at least 85, or total score at least 70 together with feature
score above 80; high behavior or ML scores alone never set the flag. -/
theorem webshell_implies_strong_evidence (bE mE : Bool) (r : DetectionResult)
    (h : (calculateTotalScore bE mE r).IsWebshell = true) :
    (calculateTotalScore bE mE r).FeatureScore > 90 ∨
      (calculateTotalScore bE mE r).TotalScore ≥ 85 ∨
      ((calculateTotalScore bE mE r).TotalScore ≥ 70 ∧
        (calculateTotalScore bE mE r).FeatureScore > 80) := by
  simp only [calculateTotalScore, thresholdClassify] at h ⊢
  split_ifs at h ⊢ <;> simp_all

/-- Witness for C9: the reachable webshell-positive example satisfies the
evidence disjunction. -/
theorem webshell_implies_strong_evidence_witness :
    webshellResultExample.FeatureScore > 90 ∨
      webshellResultExample.TotalScore ≥ 85 ∨
      (webshellResultExample.TotalScore ≥ 70 ∧
        webshellResultExample.FeatureScore > 80) :=
  webshell_implies_strong_evidence false false r100 r100_webshell

/-- C10: `Predict` validates only the feature-vector length against the
declared `FeatureCount`.  Under the precondition that the weight vector has
at least `FeatureCount` entries every weight access is in bounds and the
prediction succeeds; without it — a model file declaring `feature_count = 5`
with three weights, which `LoadModel` accepts without validation — the dot
product indexes out of bounds. -/
theorem predict_validates_only_feature_count :
    (∀ (m : Model) (features : List ℚ),
        m.FeatureCount ≤ m.Weights.length → features.length = m.FeatureCount →
        ∃ q, Predict m features = Except.ok q) ∧
      Predict badModel badFeatures = Except.error PredictErr.indexOutOfRange ∧
      (LoadModel badModelData).FeatureCount = 5 ∧
      (LoadModel badModelData).Weights.length = 3 := by
  refine ⟨?_, ?_, rfl, rfl⟩
  · intro m features hw hlen
    obtain ⟨d, hd⟩ := dotWeights_isSome features m.Weights (by rw [hlen]; exact hw)
    refine ⟨if d > 1 then 1 else if d < 0 then 0 else d, ?_⟩
    unfold Predict
    rw [if_neg (by simp [hlen]), hd]
  · rfl

/-- Witness for C10: a model with five declared features and five weights
yields a successful prediction on a five-feature vector. -/
theorem predict_validates_only_feature_count_witness :
    ∃ q, Predict goodModel goodFeatures = Except.ok q :=
  predict_validates_only_feature_count.1 goodModel goodFeatures
    (by simp [goodModel]) (by simp [goodFeatures, goodModel])
